import Mathlib

/-!
Verification of the record reconciliation and aggregation logic of the
EMG master portal (Streamlit pages `1_London_Tracker.py`,
`2_Kitchener_Finance.py`, `3_Expense_Tracker.py`, `5_Tax_Center.py`).

The pure data transformations of those pages are embedded here as Lean
functions: string cleaning, currency parsing, fee derivation from
encounter descriptors, month ordering, aggregation metrics and the
tax-center reconciliation.  Machine floats of the source are modelled as
exact rationals (`ℚ`); the pandas `NaN` marker produced by
`errors="coerce"` is modelled as `Option.none`, and `NaT` dates likewise.
-/

namespace EMG

/-- ASCII lower-casing of one character, as Python `str.lower` acts on the
ASCII range used by the sheet data. -/
def charLower (c : Char) : Char :=
  if c.toNat ≥ 65 ∧ c.toNat ≤ 90 then Char.ofNat (c.toNat + 32) else c

/-- Python `s.lower()` restricted to ASCII, via the character list. -/
def strLower (s : String) : String :=
  String.mk (s.toList.map charLower)

/-- Boolean prefix test on character lists. -/
def prefixMatch : List Char → List Char → Bool
  | [], _ => true
  | _ :: _, [] => false
  | a :: as, b :: bs => a == b && prefixMatch as bs

/-- Boolean substring test on character lists: the pattern occurs as a
prefix of some suffix. -/
def containsAux (pat : List Char) : List Char → Bool
  | [] => pat.isEmpty
  | x :: xs => prefixMatch pat (x :: xs) || containsAux pat xs

/-- Python substring containment `pat in s`. -/
def strContains (s pat : String) : Bool :=
  containsAux pat.toList s.toList

/-- Removal of every dollar sign and comma from an amount cell, modelling
the chained literal replacements
`.str.replace("$", "").str.replace(",", "")` that every page applies
before numeric coercion. -/
def stripCurrency (s : String) : String :=
  String.mk (s.toList.filter (fun c => ¬ (c = '$' ∨ c = ',')))

/-- Split a character list at every occurrence of `c` (Python
`str.split(c)` semantics: `n` separators yield `n + 1` pieces). -/
def splitOnChar (c : Char) : List Char → List (List Char)
  | [] => [[]]
  | x :: xs =>
    let r := splitOnChar c xs
    if x = c then [] :: r
    else
      match r with
      | [] => [[x]]
      | h :: t => (x :: h) :: t

/-- Numeric value of a digit run (callers guarantee the characters are
ASCII digits). -/
def digitsVal (l : List Char) : Nat :=
  l.foldl (fun a c => 10 * a + (c.toNat - 48)) 0

/-- Shape of one successfully parsed decimal literal: sign, integer part,
fraction digits and fraction length. -/
def parseNumParts (l : List Char) : Option (Bool × Nat × Nat × Nat) :=
  let (neg, body) :=
    match l with
    | '-' :: rest => (true, rest)
    | _ => (false, l)
  match splitOnChar '.' body with
  | [w] =>
    if w ≠ [] ∧ w.all Char.isDigit then some (neg, digitsVal w, 0, 0) else none
  | [w, f] =>
    if w ≠ [] ∧ w.all Char.isDigit ∧ f ≠ [] ∧ f.all Char.isDigit then
      some (neg, digitsVal w, digitsVal f, f.length)
    else none
  | _ => none

/-- Exact rational denoted by a parsed decimal literal. -/
def ratOfParts : Bool × Nat × Nat × Nat → ℚ
  | (neg, w, f, fl) => (cond neg (-1) 1) * ((w : ℚ) + (f : ℚ) / (10 ^ fl : ℚ))

/-- Decimal parse modelling `pandas.to_numeric(..., errors="coerce")` on
the plain decimal literals that occur in the sheets: an optional leading
minus, a digit run, and an optional fractional digit run after one dot.
Any other shape (letters, empty pieces, several dots) coerces to `NaN`,
modelled as `none`. -/
def parseNum (s : String) : Option ℚ :=
  (parseNumParts s.toList).map ratOfParts

/-- One amount-cell cleaning step shared by the Kitchener, Expense and Tax
pages: strip currency characters, then coerce to a number.  `none` models
the `NaN` marker a failed coercion leaves behind. -/
def cleanAmount (s : String) : Option ℚ :=
  parseNum (stripCurrency s)

/-- Amount cleaning of `2_Kitchener_Finance.py` line 63: the coerced value
is used as is, so an unparseable payment amount stays the `NaN` marker. -/
def payment_amount_clean (s : String) : Option ℚ :=
  cleanAmount s

/-- Amount cleaning of `3_Expense_Tracker.py` line 181: the coercion is
followed by `.fillna(0)`, so an unparseable expense amount becomes `0.0`. -/
def expense_amount_clean (s : String) : ℚ :=
  (cleanAmount s).getD 0

/-- Fee derivation of `1_London_Tracker.py` (`calc_fee`, lines 73-85): the
encounter descriptor is lower-cased and matched against keyword substrings
in source order, first match winning; no match yields `0.00`. -/
def calc_fee (t : String) : ℚ :=
  let s := strLower t
  if strContains s "new consult" then 85
  else if strContains s "non cts" then 65
  else if strContains s "follow up" then 65
  else 0

/-- Fee derivation of `5_Tax_Center.py` (`get_combined_data`, lines
57-62), written there as an `if`/`elif` chain over the same keywords. -/
def calc_fee_tax (t : String) : ℚ :=
  let s := strLower t
  if strContains s "new consult" then 85
  else if strContains s "non cts" then 65
  else if strContains s "follow up" then 65
  else 0

/-- Columns the London tracker derives and attaches to each record
(`1_London_Tracker.py` lines 69, 87, 90, 91).  The fee derivation adds
only the numeric `Fee` column: no marker column distinguishing unmatched
encounters is ever created. -/
def london_derived_columns : List String :=
  ["Date Object", "Fee", "Year", "Month_Name"]

/-- Calendar month names in display order (`month_order` of
`1_London_Tracker.py` line 100 and `2_Kitchener_Finance.py` line 74). -/
def month_order : List String :=
  ["January", "February", "March", "April", "May", "June", "July",
   "August", "September", "October", "November", "December"]

/-- Sort key of the month selector
(`month_order.index(x) if x in month_order else 99`). -/
def month_sort_key (x : String) : Nat :=
  if x ∈ month_order then month_order.indexOf x else 99

/-- Month-list ordering of both trackers:
`available_months.sort(key=month_sort_key, reverse=True)`.  Python
`list.sort` is stable, and with `reverse=True` it is a stable descending
sort by key; `insertionSort` with the reflexive descending-key relation
has exactly that behaviour. -/
def sort_months (l : List String) : List String :=
  List.insertionSort (fun a b => month_sort_key b ≤ month_sort_key a) l

/-- Period income total, `display_df["Fee"].sum()` over the records in
view (`1_London_Tracker.py` line 168); the empty sum is `0`. -/
def total_income (fees : List ℚ) : ℚ :=
  fees.sum

/-- Patient count `len(display_df)` (`1_London_Tracker.py` line 169). -/
def total_patients (fees : List ℚ) : Nat :=
  fees.length

/-- Average-per-patient metric of `1_London_Tracker.py` lines 192-195: the
quotient is shown only when the count is positive, else the rendered
value is `$0.00`, modelled as `0`. -/
def avg_per_patient_metric (fees : List ℚ) : ℚ :=
  if 0 < fees.length then fees.sum / (fees.length : ℚ) else 0

/-- Monthly average of `1_London_Tracker.py` lines 173-175: computed only
when the window divisor is positive, else omitted. -/
def monthly_avg_metric (total : ℚ) (divisor : Nat) : Option ℚ :=
  if 0 < divisor then some (total / (divisor : ℚ)) else none

/-- Year-over-year delta of `1_London_Tracker.py` lines 147-151:
`metric_delta` stays `None` unless the previous-year total is strictly
positive, in which case the percentage delta is attached. -/
def metric_delta (current prev : ℚ) : Option ℚ :=
  if 0 < prev then some ((current - prev) / prev * 100) else none

/-- Goal-progress bar of `1_London_Tracker.py` lines 180-182 and
`2_Kitchener_Finance.py` lines 133-135: only rendered when the target is
positive, and the ratio is clamped above by `1.0`. -/
def goal_progress_metric (total target : ℚ) : Option ℚ :=
  if 0 < target then some (min (total / target) 1) else none

/-- One cleaned Kitchener payment row as `2_Kitchener_Finance.py` uses it:
a parsed date (abstracted to an ordinal day number), the doctor cell, and
the coerced amount (`none` models `NaN`). -/
structure KitchenerRow where
  dateObj : Nat
  doctor : String
  amount : Option ℚ
deriving Repr, DecidableEq

/-- Per-doctor subtotal of `2_Kitchener_Finance.py` lines 117-119:
case-insensitive substring containment of the doctor name, summed with
pandas `sum` semantics (NaN amounts skipped, empty sum `0`). -/
def doctor_total (rows : List KitchenerRow) (name : String) : ℚ :=
  ((rows.filter (fun r => strContains (strLower r.doctor) (strLower name))).filterMap
    (fun r => r.amount)).sum

/-- Date-range metric of `2_Kitchener_Finance.py` line 138: min and max of
the date column when the frame is nonempty, else the placeholder dash,
modelled as `none`. -/
def date_range_metric (rows : List KitchenerRow) : Option (Nat × Nat) :=
  match rows.map (fun r => r.dateObj) with
  | [] => none
  | d :: ds => some (ds.foldl Nat.min d, ds.foldl Nat.max d)

/-- Padding of a short raw row with empty cells
(`while len(row) < n: row.append("")`). -/
def padRow (row : List String) (n : Nat) : List String :=
  row ++ List.replicate (n - row.length) ""

/-- One structured expense record as `get_expense_data` of
`3_Expense_Tracker.py` (lines 57-70) builds it. -/
structure ExpenseRow where
  date : String
  category : String
  amount : String
  location : String
  receipt : String
  description : String
deriving Repr, DecidableEq

/-- Fixed column mapping of `get_expense_data` (`3_Expense_Tracker.py`
lines 58-69): every data row is padded to six cells and read with the
force mapping A=Timestamp, B=Date, C=Category, D=Amount, E=Location,
F=Receipt — the same positions for every row, with no per-row layout
detection. -/
def get_expense_row (row : List String) : ExpenseRow :=
  let r := padRow row 6
  { date := r.getD 1 "", category := r.getD 2 "", amount := r.getD 3 "",
    location := r.getD 4 "", receipt := r.getD 5 "", description := r.getD 2 "" }

/-- Date parse modelling `pandas.to_datetime(..., errors="coerce")` on the
formats the sheets produce: an ISO `YYYY-MM-DD` date optionally followed
by a time-of-day after a space.  Cells of any other shape (such as a
category label) coerce to `NaT`, modelled as `none`. -/
def parseDate (s : String) : Option (Nat × Nat × Nat) :=
  let tok := (splitOnChar ' ' s.toList).headD []
  match splitOnChar '-' tok with
  | [y, m, d] =>
    if y ≠ [] ∧ y.all Char.isDigit ∧ m ≠ [] ∧ m.all Char.isDigit ∧
        d ≠ [] ∧ d.all Char.isDigit then
      if 1 ≤ digitsVal m ∧ digitsVal m ≤ 12 ∧ 1 ≤ digitsVal d ∧ digitsVal d ≤ 31 then
        some (digitsVal y, digitsVal m, digitsVal d)
      else none
    else none
  | _ => none

/-- One raw London sheet record as `get_all_records` hands it to
`5_Tax_Center.py`: the timestamp cell and the encounter descriptor. -/
structure LondonRaw where
  timestamp : String
  encounter : String
deriving Repr, DecidableEq

/-- One raw Kitchener payment record (header to value) as the Payments
worksheet hands it to `5_Tax_Center.py`. -/
structure KitchenerRaw where
  date : String
  amount : String
deriving Repr, DecidableEq

/-- One normalized income record of the tax center: parsed date (`none`
models `NaT`), coerced amount (`none` models `NaN`), and the source tag. -/
structure TaxRec where
  dateObj : Option (Nat × Nat × Nat)
  amount : Option ℚ
  source : String
deriving Repr, DecidableEq

/-- One normalized expense record of the tax center. -/
structure TaxExpRec where
  dateObj : Option (Nat × Nat × Nat)
  category : String
  amount : Option ℚ
deriving Repr, DecidableEq

/-- London branch of `get_combined_data` (`5_Tax_Center.py` lines 40-64):
the timestamp is date-coerced, the fee is recomputed from the encounter
descriptor, and the source tag is attached. -/
def normalize_london (rows : List LondonRaw) : List TaxRec :=
  rows.map (fun r =>
    { dateObj := parseDate r.timestamp, amount := some (calc_fee_tax r.encounter),
      source := "London (Fees)" })

/-- Kitchener branch of `get_combined_data` (`5_Tax_Center.py` lines
69-81): date coercion, currency-stripped amount coercion, source tag. -/
def normalize_kitchener (rows : List KitchenerRaw) : List TaxRec :=
  rows.map (fun r =>
    { dateObj := parseDate r.date, amount := cleanAmount r.amount,
      source := "Kitchener (Paid)" })

/-- Expense-row mapping of `get_combined_data` (`5_Tax_Center.py` lines
95-106): pad to four cells, read B=Date, C=Category, D=Amount, then
coerce date and amount. -/
def get_tax_expense_row (row : List String) : TaxExpRec :=
  let r := padRow row 4
  { dateObj := parseDate (r.getD 1 ""), category := r.getD 2 "",
    amount := cleanAmount (r.getD 3 "") }

/-- Expense branch of `get_combined_data` (`5_Tax_Center.py` lines
86-106). -/
def normalize_expenses (rows : List (List String)) : List TaxExpRec :=
  rows.map get_tax_expense_row

/-- Combined fetch of `5_Tax_Center.py` (`get_combined_data`, lines
37-111).  Each of the three sources is fetched and normalized inside its
own `try` block; a raised exception anywhere in one block (modelled as an
`Except.error` input for that source) is caught there and replaced by the
empty frame with that source's expected columns (here: the empty list of
that source's record type), leaving the other two blocks untouched. -/
def get_combined_data (lonRaw : Except Unit (List LondonRaw))
    (kitRaw : Except Unit (List KitchenerRaw))
    (expRaw : Except Unit (List (List String))) :
    List TaxRec × List TaxRec × List TaxExpRec :=
  ( match lonRaw with
    | .ok d => normalize_london d
    | .error _ => []
  , match kitRaw with
    | .ok d => normalize_kitchener d
    | .error _ => []
  , match expRaw with
    | .ok d => normalize_expenses d
    | .error _ => [] )

/-- Year of a normalized record (`df["Date Object"].dt.year`); `NaT`
yields no year, so such records never match a selected year. -/
def rec_year (r : TaxRec) : Option Nat :=
  r.dateObj.map (fun p => p.1)

/-- Year filter of `5_Tax_Center.py` lines 138-139. -/
def filter_year (rs : List TaxRec) (y : Nat) : List TaxRec :=
  rs.filter (fun r => rec_year r == some y)

/-- Amount sum with pandas semantics: `NaN` entries are skipped and the
empty sum is `0` (`5_Tax_Center.py` lines 143-144). -/
def sum_amount (rs : List TaxRec) : ℚ :=
  (rs.filterMap (fun r => r.amount)).sum

/-- Year filter for expense records (`5_Tax_Center.py` line 140). -/
def exp_filter_year (rs : List TaxExpRec) (y : Nat) : List TaxExpRec :=
  rs.filter (fun r => r.dateObj.map (fun p => p.1) == some y)

/-- Expense amount sum (`5_Tax_Center.py` line 147). -/
def exp_sum_amount (rs : List TaxExpRec) : ℚ :=
  (rs.filterMap (fun r => r.amount)).sum

/-- Gross revenue of `5_Tax_Center.py` line 145: London total plus
Kitchener total for the selected year. -/
def gross_income (lon kit : List TaxRec) (y : Nat) : ℚ :=
  sum_amount (filter_year lon y) + sum_amount (filter_year kit y)

/-- Total expenses of `5_Tax_Center.py` line 147. -/
def total_expenses (exp : List TaxExpRec) (y : Nat) : ℚ :=
  exp_sum_amount (exp_filter_year exp y)

/-- Net income of `5_Tax_Center.py` line 148. -/
def net_income (lon kit : List TaxRec) (exp : List TaxExpRec) (y : Nat) : ℚ :=
  gross_income lon kit y - total_expenses exp y

/-- Estimated tax of `5_Tax_Center.py` line 154: the user-supplied rate is
applied as `net * (rate / 100)` with no bound checking in this
computation (the 15-50 clamp lives in the slider widget). -/
def estimated_tax (lon kit : List TaxRec) (exp : List TaxExpRec) (y : Nat)
    (rate : ℚ) : ℚ :=
  net_income lon kit exp y * (rate / 100)

/-- Safe-to-spend of `5_Tax_Center.py` line 155. -/
def safe_to_spend (lon kit : List TaxRec) (exp : List TaxExpRec) (y : Nat)
    (rate : ℚ) : ℚ :=
  net_income lon kit exp y - estimated_tax lon kit exp y rate

end EMG

namespace EMG

/-- C1 counterexample: the old-layout expense row does not normalize to
amount 45.00 and category "Travel" — the fixed column mapping of
`get_expense_data` reads its category cell as "45.00", its amount cell as
the unparseable "Gas station" (filled to 0.0), and its date cell as the
unparseable "Travel", so the row is dropped by the date filter. -/
theorem C1_counterexample :
    (get_expense_row ["05/01/2024", "Travel", "45.00", "Gas station"]).category = "45.00" ∧
    ¬ (get_expense_row ["05/01/2024", "Travel", "45.00", "Gas station"]).category = "Travel" ∧
    cleanAmount (get_expense_row ["05/01/2024", "Travel", "45.00", "Gas station"]).amount = none ∧
    expense_amount_clean (get_expense_row ["05/01/2024", "Travel", "45.00", "Gas station"]).amount = 0 ∧
    parseDate (get_expense_row ["05/01/2024", "Travel", "45.00", "Gas station"]).date = none := by
  have hamt : (get_expense_row ["05/01/2024", "Travel", "45.00", "Gas station"]).amount
      = "Gas station" := by decide
  have hclean : cleanAmount "Gas station" = none := by decide
  refine ⟨by decide, by decide, ?_, ?_, by decide⟩
  · rw [hamt]; exact hclean
  · rw [expense_amount_clean, hamt, hclean]; rfl

/-- C1 amended: the expense normalizer applies one fixed layout (date in
cell 1, category in cell 2, amount in cell 3) to every row, with no
per-row layout sniffing; the new-layout row normalizes to amount 45.00
and category "Travel", while the old-layout row yields category "45.00",
an unparseable amount and an unparseable date. -/
theorem C1_fixed_layout :
    (get_expense_row ["2024-05-02 10:00:00", "2024-05-02", "Travel", "45.00", "London",
      "receipt.jpg"]).category = "Travel" ∧
    expense_amount_clean (get_expense_row ["2024-05-02 10:00:00", "2024-05-02", "Travel",
      "45.00", "London", "receipt.jpg"]).amount = 45 ∧
    parseDate (get_expense_row ["2024-05-02 10:00:00", "2024-05-02", "Travel", "45.00",
      "London", "receipt.jpg"]).date = some (2024, 5, 2) ∧
    (get_expense_row ["05/01/2024", "Travel", "45.00", "Gas station"]).category = "45.00" ∧
    parseDate (get_expense_row ["05/01/2024", "Travel", "45.00", "Gas station"]).date = none := by
  have hamt : (get_expense_row ["2024-05-02 10:00:00", "2024-05-02", "Travel", "45.00",
      "London", "receipt.jpg"]).amount = "45.00" := by decide
  have hparts : parseNumParts (stripCurrency "45.00").toList = some (false, 45, 0, 2) := by
    decide
  refine ⟨by decide, ?_, by decide, by decide, by decide⟩
  rw [expense_amount_clean, hamt, cleanAmount, parseNum, hparts]
  show ratOfParts (false, 45, 0, 2) = 45
  rw [ratOfParts]
  norm_num

/-- C2: the fee deriver lower-cases the descriptor and checks the keyword
substrings in the fixed order "new consult" (85.00), "non cts" (65.00),
"follow up" (65.00), first match winning, 0.00 otherwise; the result
depends only on the lower-cased text, and the tax-center variant computes
the same function. -/
theorem C2_fee_priority (t : String) :
    (strContains (strLower t) "new consult" = true → calc_fee t = 85) ∧
    (strContains (strLower t) "new consult" = false →
      strContains (strLower t) "non cts" = true → calc_fee t = 65) ∧
    (strContains (strLower t) "new consult" = false →
      strContains (strLower t) "non cts" = false →
      strContains (strLower t) "follow up" = true → calc_fee t = 65) ∧
    (strContains (strLower t) "new consult" = false →
      strContains (strLower t) "non cts" = false →
      strContains (strLower t) "follow up" = false → calc_fee t = 0) ∧
    (∀ u, strLower u = strLower t → calc_fee u = calc_fee t) ∧
    calc_fee_tax t = calc_fee t := by
  refine ⟨?_, ?_, ?_, ?_, ?_, ?_⟩
  · intro h1; simp [calc_fee, h1]
  · intro h1 h2; simp [calc_fee, h1, h2]
  · intro h1 h2 h3; simp [calc_fee, h1, h2, h3]
  · intro h1 h2 h3; simp [calc_fee, h1, h2, h3]
  · intro u hu; simp only [calc_fee, hu]
  · simp only [calc_fee, calc_fee_tax]

/-- C2 witness: a descriptor containing both "non cts" and "follow up"
with surrounding text and mixed casing yields 65.00, and a "new consult"
descriptor yields 85.00, via `C2_fee_priority` at concrete inputs. -/
theorem C2_fee_priority_witness :
    calc_fee "Pt seen: NON CTS, Follow Up later" = 65 ∧
    calc_fee "Booked a New Consult today" = 85 := by
  refine ⟨(C2_fee_priority "Pt seen: NON CTS, Follow Up later").2.1 (by decide) (by decide),
    (C2_fee_priority "Booked a New Consult today").1 (by decide)⟩

/-- C3 counterexample: in the expense page the coerced amount column is
filled with 0, so the unparseable cell "abc" becomes the number 0.0,
indistinguishable from a genuine zero amount "0.00". -/
theorem C3_counterexample :
    cleanAmount "abc" = none ∧ expense_amount_clean "abc" = 0 ∧
    expense_amount_clean "abc" = expense_amount_clean "0.00" := by
  have h1 : cleanAmount "abc" = none := by decide
  have h2 : parseNumParts (stripCurrency "0.00").toList = some (false, 0, 0, 2) := by decide
  have h3 : expense_amount_clean "abc" = 0 := by rw [expense_amount_clean, h1]; rfl
  refine ⟨h1, h3, ?_⟩
  rw [h3, expense_amount_clean, cleanAmount, parseNum, h2]
  show (0 : ℚ) = ratOfParts (false, 0, 0, 2)
  rw [ratOfParts]
  norm_num

/-- C3 amended: currency symbols and thousands separators are stripped
before parsing in both the Payment and the Expense path (so "$1,234.50"
parses to 1234.50); a still-unparseable Kitchener payment amount stays
the explicit NaN marker, but the expense page's `.fillna(0)` turns an
unparseable expense amount into 0.0, conflating it with a genuine zero. -/
theorem C3_strip_and_markers (s : String) :
    cleanAmount "$1,234.50" = some (2469 / 2) ∧
    (cleanAmount s = none → payment_amount_clean s = none ∧ expense_amount_clean s = 0) ∧
    (∀ q, cleanAmount s = some q → payment_amount_clean s = some q ∧
      expense_amount_clean s = q) := by
  have hparts : parseNumParts (stripCurrency "$1,234.50").toList
      = some (false, 1234, 50, 2) := by decide
  refine ⟨?_, ?_, ?_⟩
  · rw [cleanAmount, parseNum, hparts]
    show some (ratOfParts (false, 1234, 50, 2)) = some ((2469 : ℚ) / 2)
    rw [ratOfParts]
    norm_num
  · intro h
    exact ⟨h, by rw [expense_amount_clean, h]; rfl⟩
  · intro q h
    exact ⟨h, by rw [expense_amount_clean, h]; rfl⟩

/-- C3 witness: at the concrete unparseable cell "abc" the Kitchener path
keeps the marker and the expense path yields 0, via
`C3_strip_and_markers`. -/
theorem C3_strip_and_markers_witness :
    payment_amount_clean "abc" = none ∧ expense_amount_clean "abc" = 0 :=
  (C3_strip_and_markers "abc").2.1 (by decide)

/-- C4 counterexample: an unmatched encounter descriptor yields the bare
fee 0.00, and the record carries no "unclassified" marker — the London
tracker derives only the columns Date Object, Fee, Year and Month_Name,
none of which is an unclassified flag. -/
theorem C4_counterexample :
    calc_fee "Team picnic" = 0 ∧
    ¬ "unclassified" ∈ london_derived_columns ∧
    london_derived_columns.all
      (fun c => ¬ strContains (strLower c) "unclassified") = true := by
  refine ⟨?_, by decide, by decide⟩
  have h1 : strContains (strLower "Team picnic") "new consult" = false := by decide
  have h2 : strContains (strLower "Team picnic") "non cts" = false := by decide
  have h3 : strContains (strLower "Team picnic") "follow up" = false := by decide
  simp [calc_fee, h1, h2, h3]

/-- C4 amended: an encounter matching no fee keyword gets fee 0.00, but no
"unclassified" flag is attached anywhere; instead, because every keyword
fee is positive, a derived fee of 0.00 occurs exactly when no keyword
matched, which is the only way a caller can recognize unmatched
encounters. -/
theorem C4_unmatched_zero (t : String) :
    (calc_fee t = 0 ↔
      (strContains (strLower t) "new consult" = false ∧
       strContains (strLower t) "non cts" = false ∧
       strContains (strLower t) "follow up" = false)) ∧
    ¬ "unclassified" ∈ london_derived_columns := by
  refine ⟨?_, by decide⟩
  cases h1 : strContains (strLower t) "new consult" with
  | true => simp [calc_fee, h1]
  | false =>
    cases h2 : strContains (strLower t) "non cts" with
    | true => simp [calc_fee, h1, h2]
    | false =>
      cases h3 : strContains (strLower t) "follow up" with
      | true => simp [calc_fee, h1, h2, h3]
      | false => simp [calc_fee, h1, h2, h3]

/-- C5 counterexample: with the fallback key 99 and `reverse=True`, an
unrecognized month string sorts to the FRONT of the list, not last: the
code orders ["March", "Zzz"] as ["Zzz", "March"]. -/
theorem C5_counterexample :
    sort_months ["March", "Zzz"] = ["Zzz", "March"] ∧
    ¬ (sort_months ["March", "Zzz"]).getLast? = some "Zzz" := by
  constructor <;> decide

/-- C5 amended: the month selector sorts by calendar month index (via the
`month_order` lookup), descending and stably, with a fallback key of 99
for unrecognized strings; since the sort is descending, that fallback
ranks unrecognized strings first, not last. -/
theorem C5_month_sort (l : List String) :
    (sort_months l).Perm l ∧
    (sort_months l).Pairwise (fun a b => month_sort_key b ≤ month_sort_key a) ∧
    (∀ x ∈ l, ¬ x ∈ month_order → month_sort_key x = 99) := by
  haveI : IsTotal String (fun a b => month_sort_key b ≤ month_sort_key a) :=
    ⟨fun a b => (le_total (month_sort_key b) (month_sort_key a)).imp id id⟩
  haveI : IsTrans String (fun a b => month_sort_key b ≤ month_sort_key a) :=
    ⟨fun _ _ _ h1 h2 => le_trans h2 h1⟩
  refine ⟨List.perm_insertionSort _ l, List.sorted_insertionSort _ l, ?_⟩
  intro x _ hx
  rw [month_sort_key, if_neg hx]

/-- C5 witness: `C5_month_sort` at the concrete list ["March", "Zzz"] with
the unrecognized string "Zzz", whose fallback key is 99. -/
theorem C5_month_sort_witness :
    month_sort_key "Zzz" = 99 ∧ (sort_months ["March", "Zzz"]).Perm ["March", "Zzz"] := by
  have h := C5_month_sort ["March", "Zzz"]
  exact ⟨h.2.2 "Zzz" (by decide) (by decide), h.1⟩

/-- C6: the year-over-year percentage delta is attached only when the
prior-period total is strictly positive, as
`(current - prior) / prior * 100`; a zero or negative prior total yields
the no-prior-data outcome `none`. -/
theorem C6_delta_guard (current prev : ℚ) :
    (0 < prev → metric_delta current prev = some ((current - prev) / prev * 100)) ∧
    (prev ≤ 0 → metric_delta current prev = none) := by
  constructor
  · intro h; rw [metric_delta, if_pos h]
  · intro h; rw [metric_delta, if_neg (not_lt.mpr h)]

/-- C6 witness: prior 0 with current 500 yields no delta, and prior 500
with current 600 yields the 20 percent delta, via `C6_delta_guard`. -/
theorem C6_delta_guard_witness :
    metric_delta 500 0 = none ∧ metric_delta 600 500 = some 20 := by
  refine ⟨(C6_delta_guard 500 0).2 le_rfl, ?_⟩
  rw [(C6_delta_guard 600 500).1 (by norm_num)]
  norm_num

/-- C7: on the empty record set every aggregate degrades gracefully: zero
total, zero count, zero per-doctor subtotals, a zero average-per-patient
metric, no monthly average, and the no-data date-range placeholder — all
total functions, so nothing raises and nothing divides by zero. -/
theorem C7_empty_aggregates :
    total_income [] = 0 ∧
    total_patients [] = 0 ∧
    avg_per_patient_metric [] = 0 ∧
    monthly_avg_metric 0 0 = none ∧
    doctor_total [] "Tripic" = 0 ∧
    doctor_total [] "Cartagena" = 0 ∧
    date_range_metric [] = none := by
  refine ⟨rfl, rfl, ?_, ?_, rfl, rfl, rfl⟩
  · rw [avg_per_patient_metric]; rfl
  · rw [monthly_avg_metric]; rfl

/-- C8 counterexample: with monthly goal 10000 over 3 months (target
30000) and actual total 24000, the rendered progress is 24000/30000 =
4/5, strictly below 1 — the progress is not capped at 100 percent in this
scenario. -/
theorem C8_counterexample :
    goal_progress_metric 24000 (10000 * 3) = some (4 / 5) ∧
    ¬ goal_progress_metric 24000 (10000 * 3) = some 1 := by
  have h : goal_progress_metric 24000 (10000 * 3) = some (4 / 5) := by
    rw [goal_progress_metric, if_pos (show (0 : ℚ) < 10000 * 3 by norm_num),
      min_eq_left (by norm_num)]
    norm_num
  refine ⟨h, ?_⟩
  rw [h]
  simp only [Option.some.injEq]
  norm_num

/-- C8 amended: for a positive target the goal progress is
`min(total / target, 1.0)`; the cap yields exactly 1 once the total
reaches the target, and below the target the raw ratio is shown uncapped
(so at 24000 of 30000 the progress is 4/5, not 100 percent). -/
theorem C8_goal_progress (total target : ℚ) (h : 0 < target) :
    goal_progress_metric total target = some (min (total / target) 1) ∧
    (target ≤ total → goal_progress_metric total target = some 1) ∧
    (total ≤ target → goal_progress_metric total target = some (total / target)) := by
  refine ⟨by rw [goal_progress_metric, if_pos h], ?_, ?_⟩
  · intro hle
    rw [goal_progress_metric, if_pos h, min_eq_right ((one_le_div h).mpr hle)]
  · intro hle
    rw [goal_progress_metric, if_pos h, min_eq_left ((div_le_one h).mpr hle)]

/-- C8 witness: `C8_goal_progress` at the scenario values — under the
target the raw ratio is shown, over the target the progress is 1. -/
theorem C8_goal_progress_witness :
    goal_progress_metric 24000 30000 = some (24000 / 30000) ∧
    goal_progress_metric 40000 30000 = some 1 :=
  ⟨(C8_goal_progress 24000 30000 (by norm_num)).2.2 (by norm_num),
   (C8_goal_progress 40000 30000 (by norm_num)).2.1 (by norm_num)⟩

/-- C9: the reconciler computes gross income as the year-filtered London
plus Kitchener sums, net = gross - expenses, estimated tax =
net * rate / 100 and safe-to-spend = net - tax, all as pure functions of
(ledger, year, rate); the rate is applied unclamped for every value, in
particular the out-of-domain rate 200 passes straight through. -/
theorem C9_reconciler (lon kit : List TaxRec) (exp : List TaxExpRec) (y : Nat)
    (rate : ℚ) :
    gross_income lon kit y = sum_amount (filter_year lon y) + sum_amount (filter_year kit y) ∧
    total_expenses exp y = exp_sum_amount (exp_filter_year exp y) ∧
    net_income lon kit exp y = gross_income lon kit y - total_expenses exp y ∧
    estimated_tax lon kit exp y rate = net_income lon kit exp y * (rate / 100) ∧
    safe_to_spend lon kit exp y rate =
      net_income lon kit exp y - estimated_tax lon kit exp y rate ∧
    estimated_tax lon kit exp y 200 = net_income lon kit exp y * 2 := by
  refine ⟨rfl, rfl, rfl, rfl, rfl, ?_⟩
  rw [estimated_tax]
  norm_num

/-- C10: each of the three sources of the combined fetch is isolated in
its own try block: a failure in one source yields the empty frame for
that source only, the other two are returned intact, the function always
returns a triple (no exception escapes), and the downstream totals equal
the sums over the sources that succeeded. -/
theorem C10_source_isolation (lon : List LondonRaw) (kit : List KitchenerRaw)
    (exp : List (List String)) (y : Nat) :
    get_combined_data (.error ()) (.ok kit) (.ok exp)
      = ([], normalize_kitchener kit, normalize_expenses exp) ∧
    get_combined_data (.ok lon) (.error ()) (.ok exp)
      = (normalize_london lon, [], normalize_expenses exp) ∧
    get_combined_data (.ok lon) (.ok kit) (.error ())
      = (normalize_london lon, normalize_kitchener kit, []) ∧
    gross_income (get_combined_data (.ok lon) (.error ()) (.ok exp)).1
      (get_combined_data (.ok lon) (.error ()) (.ok exp)).2.1 y
      = sum_amount (filter_year (normalize_london lon) y) ∧
    total_expenses (get_combined_data (.ok lon) (.ok kit) (.error ())).2.2 y = 0 := by
  refine ⟨rfl, rfl, rfl, ?_, rfl⟩
  show sum_amount (filter_year (normalize_london lon) y) + sum_amount (filter_year [] y)
    = sum_amount (filter_year (normalize_london lon) y)
  rw [filter_year]
  show sum_amount (filter_year (normalize_london lon) y) + sum_amount []
    = sum_amount (filter_year (normalize_london lon) y)
  rw [sum_amount]
  show sum_amount (filter_year (normalize_london lon) y) + 0
    = sum_amount (filter_year (normalize_london lon) y)
  rw [add_zero]

end EMG
